import Mathlib

/-!
Verification of the webhook intake and usage-billing pipeline of the
SecondWelloffNumbers repository (`src/webhooks.py`, schema in `src/init_db.py`).

Shallow embedding conventions:
* Byte strings (`bytes` in Python) are `List Nat`, each entry a byte value.
* A header string is represented by the byte list of its UTF-8 encoding, so
  `str.encode('utf-8')` is the identity in the model; an absent header
  (`request.headers.get(...)` returning `None`) is `Option.none`.
* The SQLite database is a `DB` record of three tables, each a list of rows.
  `INSERT OR REPLACE` on the `UNIQUE shopify_order_id` column removes every
  row carrying that order id and prepends the fresh row; `UPDATE ... WHERE`
  maps over the rows.  `conn.commit()` in `save_order` happens before the
  `SELECT order_count` and before any billing call, which the embedding
  reflects by computing the committed state first and returning it on every
  control path.
* The `users` table is modelled with the `order_count` column that
  `webhooks.py` reads and writes (the spec's shop-account counter attribute).
* The HMAC-SHA256 digest is a call into Python's `hmac`/`hashlib` library,
  external to this repository; it is abstracted as an explicit function
  parameter `digest : List Nat → List Nat → List Nat` (key, message ↦ digest).
* The outbound `requests.post` of `create_usage_charge` is abstracted as a
  function `gw : GatewayRequest → GatewayResult`; the request issued (if any)
  is returned alongside the new state so that effects are observable.
* A Python exception escaping a function is `Except.error` carrying the
  exception class.
-/

/-- Python exception classes that the embedded code can raise. -/
inductive PyErr where
  /-- `AttributeError`, e.g. calling `.encode` on `None`. -/
  | attributeError
  /-- `TypeError`, e.g. subscripting the `None` returned by `fetchone()`. -/
  | typeError
  /-- A network exception raised by `requests.post`. -/
  | requestsError
deriving DecidableEq, Repr

/-- `USAGE_CHARGE_LIMIT = 100`: orders included in the subscription plan. -/
def USAGE_CHARGE_LIMIT : Int := 100

/-- `USAGE_CHARGE_COST = 0.25`: cost per order beyond the limit.  `0.25` is
exactly representable in binary floating point and all products appearing in
this development are exact, so the rational `1/4` is a faithful model. -/
def USAGE_CHARGE_COST : ℚ := 1/4

/-- One character of the standard base64 alphabet, as an ASCII byte. -/
def b64char (n : Nat) : Nat :=
  if n < 26 then 65 + n
  else if n < 52 then 97 + (n - 26)
  else if n < 62 then 48 + (n - 52)
  else if n = 62 then 43
  else 47

/-- `base64.b64encode`: standard base64 of a byte string, with `=` padding
(byte 61). -/
def b64encode : List Nat → List Nat
  | [] => []
  | [a] => [b64char (a / 4), b64char (a % 4 * 16), 61, 61]
  | [a, b] => [b64char (a / 4), b64char (a % 4 * 16 + b / 16), b64char (b % 16 * 4), 61]
  | a :: b :: c :: rest =>
      b64char (a / 4) :: b64char (a % 4 * 16 + b / 16) ::
      b64char (b % 16 * 4 + c / 64) :: b64char (c % 64) :: b64encode rest

/-- `verify_webhook(data, hmac_header)` from `src/webhooks.py`.

The Python code computes
`hmac.new(SHOPIFY_CLIENT_SECRET.encode('utf-8'), data, hashlib.sha256).digest()`
(abstracted as `digest secret data`), base64-encodes it, and runs
`hmac.compare_digest(computed_hmac, hmac_header.encode('utf-8'))`.
`compare_digest` is constant-time byte equality; timing is outside the model,
so it is plain equality here.  When the header is absent (`None`),
`hmac_header.encode` raises `AttributeError`. -/
def verify_webhook (digest : List Nat → List Nat → List Nat) (secret : List Nat)
    (data : List Nat) (hmac_header : Option (List Nat)) : Except PyErr Bool :=
  match hmac_header with
  | none => .error .attributeError
  | some h => .ok (b64encode (digest secret data) == h)

/-- A row of the `users` table as used by `src/webhooks.py`
(`shopify_shop` is the primary key; `order_count` is the shop's cumulative
order counter read and written by `save_order`). -/
structure UserRow where
  shopify_shop : String
  access_token : String
  charge_id : String
  order_count : Int
deriving DecidableEq, Repr

/-- A row of the `orders` table (`src/init_db.py`, `create_orders_table`):
`shopify_order_id` carries a table-wide `UNIQUE` constraint; the surrogate
autoincrement id and the defaulted `created_at` are omitted as no embedded
operation reads them. -/
structure OrderRow where
  shopify_order_id : String
  shopify_shop : String
  status : String
  details : String
  updated_at : String
deriving DecidableEq, Repr

/-- A row of the append-only `notifications` table: shop, message, created_at. -/
structure NotificationRow where
  shopify_shop : String
  message : String
  created_at : String
deriving DecidableEq, Repr

/-- The SQLite store `database.db` restricted to the tables the webhook
pipeline touches. -/
structure DB where
  orders : List OrderRow
  users : List UserRow
  notifications : List NotificationRow
deriving DecidableEq, Repr

/-- The fields of the order JSON payload that `save_order` reads
(`order['id']`, `order.get('financial_status', 'pending')`,
`order['updated_at']`, `order['created_at']`); `raw` stands for the payload's
textual form `str(order)` stored in the `details` column. -/
structure OrderPayload where
  id : String
  financial_status : Option String
  updated_at : String
  created_at : String
  raw : String
deriving DecidableEq, Repr

/-- The usage-charge POST that `create_usage_charge` sends to
`https://{shop}/admin/api/2023-01/recurring_application_charges/{charge_id}/usage_charges.json`:
shop, auth header token, charge id in the URL, and the JSON body's
description and price. -/
structure GatewayRequest where
  shop : String
  access_token : String
  charge_id : String
  description : String
  price : ℚ
deriving DecidableEq, Repr

/-- Outcome of `requests.post`: an HTTP response (whose body `.json()`
parses to `json`), or a network exception. -/
inductive GatewayResult where
  | response (json : String)
  | netError
deriving DecidableEq, Repr

/-- `SELECT ... FROM users WHERE shopify_shop = ?` followed by `fetchone()`:
the first row matching the shop, if any. -/
def lookupUser (users : List UserRow) (shop : String) : Option UserRow :=
  users.find? (fun u => u.shopify_shop == shop)

/-- `UPDATE users SET order_count = order_count + 1 WHERE shopify_shop = ?`. -/
def incrementUsers (users : List UserRow) (shop : String) : List UserRow :=
  users.map (fun u =>
    if u.shopify_shop == shop then { u with order_count := u.order_count + 1 } else u)

/-- The row written by `save_order`'s
`INSERT OR REPLACE INTO orders (shopify_order_id, shopify_shop, status, details, updated_at)`. -/
def orderRow (order : OrderPayload) (shop : String) : OrderRow :=
  { shopify_order_id := order.id
    shopify_shop := shop
    status := order.financial_status.getD "pending"
    details := order.raw
    updated_at := order.updated_at }

/-- The orders table after `INSERT OR REPLACE`: the `UNIQUE` constraint on
`shopify_order_id` deletes every row with the incoming order id and inserts
the fresh row. -/
def upsertOrders (orders : List OrderRow) (order : OrderPayload) (shop : String) :
    List OrderRow :=
  orderRow order shop :: orders.filter (fun r => !(r.shopify_order_id == order.id))

/-- The store state committed by `save_order`'s `conn.commit()`:
order upsert plus counter increment.  Everything after the commit (the
`SELECT order_count`, the billing call) leaves this state untouched. -/
def commitState (db : DB) (order : OrderPayload) (shop : String) : DB :=
  { db with
    orders := upsertOrders db.orders order shop
    users := incrementUsers db.users shop }

/-- `create_usage_charge(shop, excess_orders)` from `src/webhooks.py`:
reads `access_token` and `charge_id` from the shop's user row (a missing row
makes `user['access_token']` raise `TypeError`), posts a usage charge with
`price = excess_orders * USAGE_CHARGE_COST`, and returns `response.json()`.
The result pairs the request actually issued (if any) with the control
outcome. -/
def create_usage_charge (db : DB) (shop : String) (excess_orders : Int)
    (gw : GatewayRequest → GatewayResult) :
    Option GatewayRequest × Except PyErr String :=
  match lookupUser db.users shop with
  | none => (none, .error .typeError)
  | some u =>
      let req : GatewayRequest :=
        { shop := shop
          access_token := u.access_token
          charge_id := u.charge_id
          description := "Additional orders"
          price := (excess_orders : ℚ) * USAGE_CHARGE_COST }
      match gw req with
      | .response j => (some req, .ok j)
      | .netError => (some req, .error .requestsError)

/-- `save_order(order, shop)` from `src/webhooks.py`:
upsert the order row, increment the shop's counter, commit, then re-read the
counter (`fetchone()['order_count']` raises `TypeError` when the shop has no
user row) and, if it exceeds `USAGE_CHARGE_LIMIT`, call
`create_usage_charge(shop, order_count - USAGE_CHARGE_LIMIT)`.
Returns the committed store (valid on every control path, since the commit
precedes every possible exception), the usage-charge request issued (if any),
and the control outcome. -/
def save_order (db : DB) (order : OrderPayload) (shop : String)
    (gw : GatewayRequest → GatewayResult) :
    DB × Option GatewayRequest × Except PyErr Unit :=
  let db' := commitState db order shop
  match lookupUser db'.users shop with
  | none => (db', none, .error .typeError)
  | some u =>
      if u.order_count > USAGE_CHARGE_LIMIT then
        let r := create_usage_charge db' shop (u.order_count - USAGE_CHARGE_LIMIT) gw
        (db', r.1, r.2.map (fun _ => ()))
      else
        (db', none, .ok ())

/-- `save_notification(message, timestamp, shop)`: append-only insert into
`notifications` (autoincrement ids ascend, so appending at the tail). -/
def save_notification (db : DB) (message : String) (timestamp : String)
    (shop : String) : DB :=
  { db with notifications := db.notifications ++ [⟨shop, message, timestamp⟩] }

/-- An inbound webhook delivery as seen by the endpoints: the exact raw body
bytes, the optional `X-Shopify-Hmac-Sha256` header (UTF-8 bytes), the
`X-Shopify-Shop-Domain` header, and the JSON-parsed body. -/
structure WebhookRequest where
  raw_body : List Nat
  hmac_header : Option (List Nat)
  shop : String
  order : OrderPayload
deriving DecidableEq, Repr

/-- The `POST /webhook/orders/create` handler `orders_create`:
verify the signature over the raw bytes (a raised exception propagates);
on failure return `("Webhook verification failed", 400)` with no side
effects; on success run `save_order` then `save_notification('New order
received', order['created_at'], shop)` and return status 200.
Result: (store state, usage-charge request issued, control outcome carrying
the HTTP status and body). -/
def orders_create (digest : List Nat → List Nat → List Nat) (secret : List Nat)
    (gw : GatewayRequest → GatewayResult) (db : DB) (req : WebhookRequest) :
    DB × Option GatewayRequest × Except PyErr (Nat × String) :=
  match verify_webhook digest secret req.raw_body req.hmac_header with
  | .error e => (db, none, .error e)
  | .ok false => (db, none, .ok (400, "Webhook verification failed"))
  | .ok true =>
      let r := save_order db req.order req.shop gw
      match r.2.2 with
      | .error e => (r.1, r.2.1, .error e)
      | .ok _ =>
          (save_notification r.1 "New order received" req.order.created_at req.shop,
           r.2.1, .ok (200, "success"))

/-- The `POST /webhook/orders/paid` handler `orders_paid`: identical to
`orders_create` except for the audit message and its timestamp
(`'Order payment received'`, `order['updated_at']`). -/
def orders_paid (digest : List Nat → List Nat → List Nat) (secret : List Nat)
    (gw : GatewayRequest → GatewayResult) (db : DB) (req : WebhookRequest) :
    DB × Option GatewayRequest × Except PyErr (Nat × String) :=
  match verify_webhook digest secret req.raw_body req.hmac_header with
  | .error e => (db, none, .error e)
  | .ok false => (db, none, .ok (400, "Webhook verification failed"))
  | .ok true =>
      let r := save_order db req.order req.shop gw
      match r.2.2 with
      | .error e => (r.1, r.2.1, .error e)
      | .ok _ =>
          (save_notification r.1 "Order payment received" req.order.updated_at req.shop,
           r.2.1, .ok (200, "success"))

/-- The store state after a sequence of `orders/create` deliveries
(each delivery leaves the state its handler produced, whether the delivery
was rejected, errored, or completed). -/
def runEvents (digest : List Nat → List Nat → List Nat) (secret : List Nat)
    (gw : GatewayRequest → GatewayResult) (db : DB)
    (events : List WebhookRequest) : DB :=
  events.foldl (fun d e => (orders_create digest secret gw d e).1) db

/-! Concrete fixtures used by the closed witness and counterexample theorems. -/

/-- A gateway that answers every usage-charge POST with a 2xx response. -/
def wGw : GatewayRequest → GatewayResult := fun _ => .response "ok"

/-- A gateway on which every usage-charge POST raises a network error. -/
def wGwFail : GatewayRequest → GatewayResult := fun _ => .netError

/-- A sample order payload. -/
def wOrder : OrderPayload :=
  { id := "1001", financial_status := some "paid",
    updated_at := "2023-01-02", created_at := "2023-01-01", raw := "order-1001" }

/-- A sample shop with the given order counter. -/
def wUserAt (n : Int) : UserRow :=
  { shopify_shop := "shop1.example.com", access_token := "token-1",
    charge_id := "charge-1", order_count := n }

/-- A store holding the sample shop at counter `n` and no orders. -/
def wDbAt (n : Int) : DB := { orders := [], users := [wUserAt n], notifications := [] }

/-- A stand-in digest function used to instantiate the abstracted
HMAC-SHA256 parameter in closed witness statements. -/
def wDigest : List Nat → List Nat → List Nat := fun secret data => secret ++ data

/-- A delivery whose signature header does not match the digest of its body
under `wDigest` and secret `[1]`. -/
def wReqBad : WebhookRequest :=
  { raw_body := [2], hmac_header := some [], shop := "shop1.example.com", order := wOrder }

/-- A delivery carrying the correct signature for its body under `wDigest`
and secret `[1]`. -/
def wReqGood : WebhookRequest :=
  { raw_body := [2], hmac_header := some (b64encode (wDigest [1] [2])),
    shop := "shop1.example.com", order := wOrder }

/-- Per-shop counter evolution: same shop key, counter not decreased.
The spec's monotonicity invariant relates a user row to its later state
through this relation. -/
def counterLe (u u' : UserRow) : Prop :=
  u.shopify_shop = u'.shopify_shop ∧ u.order_count ≤ u'.order_count

/-- The `UNIQUE shopify_order_id` table invariant: all rows of the orders
table carry pairwise distinct order ids. -/
def distinctOrderIds (orders : List OrderRow) : Prop :=
  List.Pairwise (fun r r' => r.shopify_order_id ≠ r'.shopify_order_id) orders

/-! ### Helper lemmas -/

theorem lookupUser_incrementUsers (us : List UserRow) (shop : String) :
    lookupUser (incrementUsers us shop) shop
      = (lookupUser us shop).map (fun u => { u with order_count := u.order_count + 1 }) := by
  simp only [lookupUser, incrementUsers]
  induction us with
  | nil => rfl
  | cons u us ih =>
    simp only [List.map_cons, List.find?_cons]
    cases h : u.shopify_shop == shop with
    | true => simp [h]
    | false =>
      simp only [List.find?_cons, h]
      simpa [h, -List.find?_map] using ih

theorem save_order_fst (db : DB) (order : OrderPayload) (shop : String)
    (gw : GatewayRequest → GatewayResult) :
    (save_order db order shop gw).1 = commitState db order shop := by
  unfold save_order
  dsimp only
  split
  · rfl
  · split <;> rfl

theorem save_order_users (db : DB) (order : OrderPayload) (shop : String)
    (gw : GatewayRequest → GatewayResult) :
    (save_order db order shop gw).1.users = incrementUsers db.users shop := by
  rw [save_order_fst]; rfl

theorem save_order_orders (db : DB) (order : OrderPayload) (shop : String)
    (gw : GatewayRequest → GatewayResult) :
    (save_order db order shop gw).1.orders = upsertOrders db.orders order shop := by
  rw [save_order_fst]; rfl

theorem save_order_lookup (db : DB) (order : OrderPayload) (shop : String)
    (gw : GatewayRequest → GatewayResult) (u : UserRow)
    (h : lookupUser db.users shop = some u) :
    lookupUser (save_order db order shop gw).1.users shop
      = some { u with order_count := u.order_count + 1 } := by
  rw [save_order_users, lookupUser_incrementUsers, h]
  rfl

theorem save_order_charge (db : DB) (order : OrderPayload) (shop : String)
    (gw : GatewayRequest → GatewayResult) (u : UserRow)
    (h : lookupUser db.users shop = some u) :
    (save_order db order shop gw).2.1
      = (if u.order_count + 1 > USAGE_CHARGE_LIMIT then
          some { shop := shop, access_token := u.access_token,
                 charge_id := u.charge_id, description := "Additional orders",
                 price := ((u.order_count + 1 - USAGE_CHARGE_LIMIT : Int) : ℚ)
                   * USAGE_CHARGE_COST }
         else none) := by
  have hl : lookupUser (commitState db order shop).users shop
      = some { u with order_count := u.order_count + 1 } := by
    show lookupUser (incrementUsers db.users shop) shop = _
    rw [lookupUser_incrementUsers, h]
    rfl
  unfold save_order create_usage_charge
  simp only [hl]
  by_cases hc : u.order_count + 1 > USAGE_CHARGE_LIMIT
  · simp only [if_pos hc]
    cases gw _ <;> rfl
  · simp only [if_neg hc]

/-! ### Claims about the order ledger -/

/-- Claim C5: every accepted `save_order` call increments the shop's order
counter by exactly one — for every starting store, hence regardless of
whether the upsert inserted a fresh order id or replaced an existing one —
and the threshold check (the emitted usage-charge request) is computed from
that new counter value `u.order_count + 1`. -/
theorem claim_C5 (db : DB) (order : OrderPayload) (shop : String)
    (gw : GatewayRequest → GatewayResult) (u : UserRow)
    (h : lookupUser db.users shop = some u) :
    lookupUser (save_order db order shop gw).1.users shop
        = some { u with order_count := u.order_count + 1 }
    ∧ (save_order db order shop gw).2.1
        = (if u.order_count + 1 > USAGE_CHARGE_LIMIT then
            some { shop := shop, access_token := u.access_token,
                   charge_id := u.charge_id, description := "Additional orders",
                   price := ((u.order_count + 1 - USAGE_CHARGE_LIMIT : Int) : ℚ)
                     * USAGE_CHARGE_COST }
           else none) :=
  ⟨save_order_lookup db order shop gw u h, save_order_charge db order shop gw u h⟩

/-- Witness for C5: the sample shop at counter 0 moves to counter 1 and no
charge is issued. -/
theorem claim_C5_witness :
    lookupUser (save_order (wDbAt 0) wOrder "shop1.example.com" wGw).1.users
        "shop1.example.com" = some (wUserAt 1)
    ∧ (save_order (wDbAt 0) wOrder "shop1.example.com" wGw).2.1 = none := by
  have h := claim_C5 (wDbAt 0) wOrder "shop1.example.com" wGw (wUserAt 0) (by rfl)
  refine ⟨by rw [h.1]; rfl, by rw [h.2]; rfl⟩

/-- Counterexample to C2 as stated: delivering the identical order-create
event twice, from the same starting state with the same order id, moves the
sample shop's counter from 0 to 2 — two net increments, not one. -/
theorem claim_C2_counterexample :
    lookupUser
        (save_order (save_order (wDbAt 0) wOrder "shop1.example.com" wGw).1
          wOrder "shop1.example.com" wGw).1.users "shop1.example.com"
      = some (wUserAt 2)
    ∧ some (wUserAt 2) ≠ some (wUserAt 1) := by
  refine ⟨?_, by decide⟩
  have h1 := save_order_lookup (wDbAt 0) wOrder "shop1.example.com" wGw (wUserAt 0) (by rfl)
  have h2 := save_order_lookup (save_order (wDbAt 0) wOrder "shop1.example.com" wGw).1
    wOrder "shop1.example.com" wGw _ h1
  rw [h2]; rfl

/-- Claim C2 amended: `save_order` increments the shop's counter on every
delivery, whether or not the order id has been seen before; applying it
twice with identical input therefore yields two net increments, not one.
The code counts delivered events, not distinct orders. -/
theorem claim_C2 (db : DB) (order : OrderPayload) (shop : String)
    (gw : GatewayRequest → GatewayResult) (u : UserRow)
    (h : lookupUser db.users shop = some u) :
    lookupUser
        (save_order (save_order db order shop gw).1 order shop gw).1.users shop
      = some { u with order_count := u.order_count + 1 + 1 } :=
  save_order_lookup _ order shop gw _ (save_order_lookup db order shop gw u h)

/-- Witness for C2 (amended): two identical deliveries to the sample shop at
counter 0 leave it at counter 0 + 1 + 1. -/
theorem claim_C2_witness :
    lookupUser
        (save_order (save_order (wDbAt 0) wOrder "shop1.example.com" wGw).1
          wOrder "shop1.example.com" wGw).1.users "shop1.example.com"
      = some { wUserAt 0 with order_count := (0 : Int) + 1 + 1 } :=
  claim_C2 (wDbAt 0) wOrder "shop1.example.com" wGw (wUserAt 0) (by rfl)

/-- Counterexample to C1 as stated: with the sample shop at counter 101,
the next order (its 102nd) triggers a usage charge priced at
`2 * USAGE_CHARGE_COST` — the cumulative excess `102 - 100` — and not at
`1 * USAGE_CHARGE_COST` as the claim's incremental policy predicts. -/
theorem claim_C1_counterexample :
    (save_order (wDbAt 101) wOrder "shop1.example.com" wGw).2.1
      = some { shop := "shop1.example.com", access_token := "token-1",
               charge_id := "charge-1", description := "Additional orders",
               price := 2 * USAGE_CHARGE_COST }
    ∧ (save_order (wDbAt 101) wOrder "shop1.example.com" wGw).2.1
      ≠ some { shop := "shop1.example.com", access_token := "token-1",
               charge_id := "charge-1", description := "Additional orders",
               price := 1 * USAGE_CHARGE_COST } := by
  have h := save_order_charge (wDbAt 101) wOrder "shop1.example.com" wGw
    (wUserAt 101) (by rfl)
  constructor
  · rw [h]; norm_num [wUserAt, USAGE_CHARGE_LIMIT]
  · rw [h]; norm_num [wUserAt, USAGE_CHARGE_LIMIT, USAGE_CHARGE_COST]

/-- Claim C1 amended: with `USAGE_CHARGE_LIMIT = 100`, the order that brings
a shop's counter to exactly 100 triggers no usage charge; the order bringing
it to 101 triggers a charge for 1 excess unit at one `USAGE_CHARGE_COST`;
the order bringing it to 102 triggers a charge for the cumulative excess of
2 units priced at `2 * USAGE_CHARGE_COST` (the code recomputes
`order_count - USAGE_CHARGE_LIMIT` fresh on every over-limit order), not
for 1 more unit. -/
theorem claim_C1 (db : DB) (order : OrderPayload) (shop : String)
    (gw : GatewayRequest → GatewayResult) (u : UserRow)
    (h : lookupUser db.users shop = some u) :
    (u.order_count = 99 → (save_order db order shop gw).2.1 = none)
    ∧ (u.order_count = 100 → (save_order db order shop gw).2.1
        = some { shop := shop, access_token := u.access_token,
                 charge_id := u.charge_id, description := "Additional orders",
                 price := 1 * USAGE_CHARGE_COST })
    ∧ (u.order_count = 101 → (save_order db order shop gw).2.1
        = some { shop := shop, access_token := u.access_token,
                 charge_id := u.charge_id, description := "Additional orders",
                 price := 2 * USAGE_CHARGE_COST }) := by
  refine ⟨fun hc => ?_, fun hc => ?_, fun hc => ?_⟩ <;>
    rw [save_order_charge db order shop gw u h, hc] <;> norm_num [USAGE_CHARGE_LIMIT]

/-- Witness for C1 (amended): the sample shop crossing from 99 to 100 is not
charged; from 100 to 101 it is charged one unit. -/
theorem claim_C1_witness :
    (save_order (wDbAt 99) wOrder "shop1.example.com" wGw).2.1 = none
    ∧ (save_order (wDbAt 100) wOrder "shop1.example.com" wGw).2.1
      = some { shop := "shop1.example.com", access_token := "token-1",
               charge_id := "charge-1", description := "Additional orders",
               price := 1 * USAGE_CHARGE_COST } :=
  ⟨(claim_C1 (wDbAt 99) wOrder "shop1.example.com" wGw (wUserAt 99) (by rfl)).1 (by rfl),
   (claim_C1 (wDbAt 100) wOrder "shop1.example.com" wGw (wUserAt 100) (by rfl)).2.1 (by rfl)⟩

/-- Claim C6: a billing-gateway failure after ingestion does not roll the
store back.  The store state produced by `save_order` is the same under
every gateway behaviour as under the always-failing gateway `wGwFail`, and
even under `wGwFail` the order record is persisted (it heads the upserted
orders table) and the shop's counter is incremented. -/
theorem claim_C6 (db : DB) (order : OrderPayload) (shop : String)
    (gw : GatewayRequest → GatewayResult) :
    (save_order db order shop gw).1 = (save_order db order shop wGwFail).1
    ∧ (save_order db order shop wGwFail).1.orders
        = orderRow order shop
            :: db.orders.filter (fun r => !(r.shopify_order_id == order.id))
    ∧ (save_order db order shop wGwFail).1.users = incrementUsers db.users shop := by
  refine ⟨?_, ?_, ?_⟩
  · rw [save_order_fst, save_order_fst]
  · rw [save_order_orders]; rfl
  · rw [save_order_users]

/-! ### Claims about the webhook endpoints -/

/-- Claim C7: when signature verification returns false for a delivery, both
endpoints reject it with the client-error response
`("Webhook verification failed", 400)` and perform no side effects: the
store — orders, counters, notifications — is returned unchanged and no
usage-charge request is issued. -/
theorem claim_C7 (digest : List Nat → List Nat → List Nat) (secret : List Nat)
    (gw : GatewayRequest → GatewayResult) (db : DB) (req : WebhookRequest)
    (h : verify_webhook digest secret req.raw_body req.hmac_header = .ok false) :
    orders_create digest secret gw db req
        = (db, none, .ok (400, "Webhook verification failed"))
    ∧ orders_paid digest secret gw db req
        = (db, none, .ok (400, "Webhook verification failed")) := by
  constructor
  · unfold orders_create
    simp only [h]
  · unfold orders_paid
    simp only [h]

/-- Witness for C7: the delivery `wReqBad` carries a wrong signature and is
rejected by both endpoints with status 400, leaving the store untouched. -/
theorem claim_C7_witness :
    orders_create wDigest [1] wGw (wDbAt 0) wReqBad
        = (wDbAt 0, none, .ok (400, "Webhook verification failed"))
    ∧ orders_paid wDigest [1] wGw (wDbAt 0) wReqBad
        = (wDbAt 0, none, .ok (400, "Webhook verification failed")) :=
  claim_C7 wDigest [1] wGw (wDbAt 0) wReqBad (by rfl)

/-- Claim C3, behaviour at the failing input: `verify_webhook` raises
`AttributeError` whenever the signature header is absent (the code calls
`.encode('utf-8')` on `None`), for every digest, secret and body — it does
not return false there, contradicting the spec's fail-closed contract.
A malformed but present header (e.g. not base64 at all) does fail closed:
the comparison returns false without raising. -/
theorem claim_C3_eval :
    (∀ (digest : List Nat → List Nat → List Nat) (secret data : List Nat),
      verify_webhook digest secret data none = .error .attributeError)
    ∧ verify_webhook wDigest [] [] (some [65]) = .ok false :=
  ⟨fun _ _ _ => rfl, by rfl⟩

/-! ### Counter monotonicity -/

theorem save_notification_users (db : DB) (m t s : String) :
    (save_notification db m t s).users = db.users := rfl

theorem save_notification_orders (db : DB) (m t s : String) :
    (save_notification db m t s).orders = db.orders := rfl

theorem forall2_counterLe_refl (us : List UserRow) : List.Forall₂ counterLe us us := by
  induction us with
  | nil => exact List.Forall₂.nil
  | cons u us ih => exact List.Forall₂.cons ⟨rfl, le_refl _⟩ ih

theorem forall2_counterLe_increment (us : List UserRow) (shop : String) :
    List.Forall₂ counterLe us (incrementUsers us shop) := by
  induction us with
  | nil => exact List.Forall₂.nil
  | cons u us ih =>
    simp only [incrementUsers, List.map_cons]
    refine List.Forall₂.cons ?_ ih
    split
    · exact ⟨rfl, by show u.order_count ≤ u.order_count + 1; omega⟩
    · exact ⟨rfl, le_refl _⟩

theorem forall2_counterLe_trans {us vs ws : List UserRow}
    (h1 : List.Forall₂ counterLe us vs) (h2 : List.Forall₂ counterLe vs ws) :
    List.Forall₂ counterLe us ws := by
  induction h1 generalizing ws with
  | nil => cases h2; exact .nil
  | cons h t ih =>
    cases h2 with
    | cons h' t' => exact .cons ⟨h.1.trans h'.1, h.2.trans h'.2⟩ (ih t')

theorem forall2_counterLe_mem {us us' : List UserRow}
    (h : List.Forall₂ counterLe us us') {u' : UserRow} (hm : u' ∈ us') :
    ∃ u ∈ us, counterLe u u' := by
  induction h with
  | nil => cases hm
  | cons hh ht ih =>
    cases hm with
    | head => exact ⟨_, List.mem_cons_self _ _, hh⟩
    | tail _ hm' =>
      obtain ⟨u, hu, hc⟩ := ih hm'
      exact ⟨u, List.mem_cons_of_mem _ hu, hc⟩

theorem orders_create_users (digest : List Nat → List Nat → List Nat)
    (secret : List Nat) (gw : GatewayRequest → GatewayResult) (db : DB)
    (e : WebhookRequest) :
    (orders_create digest secret gw db e).1.users = db.users
    ∨ (orders_create digest secret gw db e).1.users = incrementUsers db.users e.shop := by
  unfold orders_create
  dsimp only
  split
  · exact Or.inl rfl
  · exact Or.inl rfl
  · split
    · exact Or.inr (save_order_users db e.order e.shop gw)
    · refine Or.inr ?_
      rw [save_notification_users]
      exact save_order_users db e.order e.shop gw

theorem orders_paid_users (digest : List Nat → List Nat → List Nat)
    (secret : List Nat) (gw : GatewayRequest → GatewayResult) (db : DB)
    (e : WebhookRequest) :
    (orders_paid digest secret gw db e).1.users = db.users
    ∨ (orders_paid digest secret gw db e).1.users = incrementUsers db.users e.shop := by
  unfold orders_paid
  dsimp only
  split
  · exact Or.inl rfl
  · exact Or.inl rfl
  · split
    · exact Or.inr (save_order_users db e.order e.shop gw)
    · refine Or.inr ?_
      rw [save_notification_users]
      exact save_order_users db e.order e.shop gw

theorem runEvents_users_mono (digest : List Nat → List Nat → List Nat)
    (secret : List Nat) (gw : GatewayRequest → GatewayResult) :
    ∀ (events : List WebhookRequest) (db : DB),
      List.Forall₂ counterLe db.users (runEvents digest secret gw db events).users := by
  intro events
  induction events with
  | nil => intro db; exact forall2_counterLe_refl _
  | cons e es ih =>
    intro db
    have h1 : List.Forall₂ counterLe db.users (orders_create digest secret gw db e).1.users := by
      rcases orders_create_users digest secret gw db e with h | h
      · rw [h]; exact forall2_counterLe_refl _
      · rw [h]; exact forall2_counterLe_increment _ _
    exact forall2_counterLe_trans h1 (ih _)

/-- Claim C8: shop order counters are monotonically non-decreasing and stay
non-negative.  Across any sequence of `orders/create` deliveries each user
row evolves to a row with the same shop key and a counter at least as large
(`counterLe`); if every counter starts non-negative, every counter after the
sequence is non-negative; and a single `orders/paid` delivery likewise never
decreases any counter. -/
theorem claim_C8 (digest : List Nat → List Nat → List Nat) (secret : List Nat)
    (gw : GatewayRequest → GatewayResult) (db : DB) (events : List WebhookRequest)
    (h : ∀ u ∈ db.users, 0 ≤ u.order_count) :
    List.Forall₂ counterLe db.users (runEvents digest secret gw db events).users
    ∧ (∀ u' ∈ (runEvents digest secret gw db events).users, 0 ≤ u'.order_count)
    ∧ ∀ e : WebhookRequest,
        List.Forall₂ counterLe db.users (orders_paid digest secret gw db e).1.users := by
  have hm := runEvents_users_mono digest secret gw events db
  refine ⟨hm, ?_, ?_⟩
  · intro u' hu'
    obtain ⟨u, hu, hc⟩ := forall2_counterLe_mem hm hu'
    exact le_trans (h u hu) hc.2
  · intro e
    rcases orders_paid_users digest secret gw db e with h' | h'
    · rw [h']; exact forall2_counterLe_refl _
    · rw [h']; exact forall2_counterLe_increment _ _

/-- Witness for C8: one correctly-signed delivery to the sample shop at
counter 0 yields a row-wise `counterLe` evolution and non-negative counters. -/
theorem claim_C8_witness :
    List.Forall₂ counterLe (wDbAt 0).users
        (runEvents wDigest [1] wGw (wDbAt 0) [wReqGood]).users
    ∧ (∀ u' ∈ (runEvents wDigest [1] wGw (wDbAt 0) [wReqGood]).users,
        0 ≤ u'.order_count)
    ∧ ∀ e : WebhookRequest,
        List.Forall₂ counterLe (wDbAt 0).users
          (orders_paid wDigest [1] wGw (wDbAt 0) e).1.users :=
  claim_C8 wDigest [1] wGw (wDbAt 0) [wReqGood] (by decide)

/-! ### Order-id uniqueness -/

theorem upsertOrders_distinct {os : List OrderRow} (order : OrderPayload)
    (shop : String) (h : distinctOrderIds os) :
    distinctOrderIds (upsertOrders os order shop) := by
  unfold distinctOrderIds upsertOrders
  refine List.Pairwise.cons ?_ (h.filter _)
  intro r hr
  have hb := (List.mem_filter.mp hr).2
  simp only [Bool.not_eq_eq_eq_not, Bool.not_true, beq_eq_false_iff_ne] at hb
  exact fun he => hb he.symm

theorem pairwise_filter_len_le {os : List OrderRow} (h : distinctOrderIds os)
    (p : OrderRow → Bool)
    (hp : ∀ r r', p r = true → p r' = true →
      r.shopify_order_id = r'.shopify_order_id) :
    (os.filter p).length ≤ 1 := by
  induction os with
  | nil => simp
  | cons r os ih =>
    have h' := List.pairwise_cons.mp h
    by_cases hr : p r = true
    · rw [List.filter_cons_of_pos hr]
      have hnil : os.filter p = [] := by
        rw [List.filter_eq_nil_iff]
        intro a ha hpa
        exact h'.1 a ha (hp r a hr hpa)
      rw [hnil]
      simp
    · rw [List.filter_cons_of_neg hr]
      exact ih h'.2

theorem orders_create_orders (digest : List Nat → List Nat → List Nat)
    (secret : List Nat) (gw : GatewayRequest → GatewayResult) (db : DB)
    (e : WebhookRequest) :
    (orders_create digest secret gw db e).1.orders = db.orders
    ∨ (orders_create digest secret gw db e).1.orders
        = upsertOrders db.orders e.order e.shop := by
  unfold orders_create
  dsimp only
  split
  · exact Or.inl rfl
  · exact Or.inl rfl
  · split
    · exact Or.inr (save_order_orders db e.order e.shop gw)
    · refine Or.inr ?_
      rw [save_notification_orders]
      exact save_order_orders db e.order e.shop gw

theorem runEvents_orders_distinct (digest : List Nat → List Nat → List Nat)
    (secret : List Nat) (gw : GatewayRequest → GatewayResult) :
    ∀ (events : List WebhookRequest) (db : DB),
      distinctOrderIds db.orders →
        distinctOrderIds (runEvents digest secret gw db events).orders := by
  intro events
  induction events with
  | nil => intro db h; exact h
  | cons e es ih =>
    intro db h
    refine ih _ ?_
    rcases orders_create_orders digest secret gw db e with h' | h'
    · rw [h']; exact h
    · rw [h']; exact upsertOrders_distinct e.order e.shop h

/-- Claim C9: starting from an orders table whose rows carry pairwise
distinct order ids (the `UNIQUE shopify_order_id` constraint), any sequence
of deliveries preserves that invariant — repeated delivery of the same event
replaces the stored record rather than duplicating it — and consequently the
table holds at most one record per (shop, order id) pair. -/
theorem claim_C9 (digest : List Nat → List Nat → List Nat) (secret : List Nat)
    (gw : GatewayRequest → GatewayResult) (db : DB) (events : List WebhookRequest)
    (h : distinctOrderIds db.orders) :
    distinctOrderIds (runEvents digest secret gw db events).orders
    ∧ ∀ shop oid : String,
        ((runEvents digest secret gw db events).orders.filter
          (fun r => r.shopify_order_id == oid && r.shopify_shop == shop)).length ≤ 1 := by
  have hd := runEvents_orders_distinct digest secret gw events db h
  refine ⟨hd, fun shop oid => ?_⟩
  refine pairwise_filter_len_le hd _ ?_
  intro r r' hr hr'
  simp only [Bool.and_eq_true, beq_iff_eq] at hr hr'
  exact hr.1.trans hr'.1.symm

/-- Witness for C9: after delivering the same signed event twice into the
empty store, at most one record for the sample (shop, order id) pair exists. -/
theorem claim_C9_witness :
    ((runEvents wDigest [1] wGw (wDbAt 0) [wReqGood, wReqGood]).orders.filter
      (fun r => r.shopify_order_id == "1001"
        && r.shopify_shop == "shop1.example.com")).length ≤ 1 :=
  (claim_C9 wDigest [1] wGw (wDbAt 0) [wReqGood, wReqGood]
    List.Pairwise.nil).2 "shop1.example.com" "1001"

/-- Claim C10: order-record uniqueness is keyed by the platform order id
alone, across shops.  If some stored row `r` carries the incoming order id
but belongs to a different shop, an accepted delivery for shop `shopB`
removes `r` and leaves exactly one row with that order id — the fresh row
referencing `shopB`. -/
theorem claim_C10 (db : DB) (order : OrderPayload) (shopB : String)
    (gw : GatewayRequest → GatewayResult) (r : OrderRow) (_hr : r ∈ db.orders)
    (hid : r.shopify_order_id = order.id) (hs : r.shopify_shop ≠ shopB) :
    (save_order db order shopB gw).1.orders.filter
        (fun x => x.shopify_order_id == order.id) = [orderRow order shopB]
    ∧ r ∉ (save_order db order shopB gw).1.orders := by
  rw [save_order_orders]
  constructor
  · unfold upsertOrders
    rw [List.filter_cons_of_pos (by simp [orderRow])]
    have hnil : (db.orders.filter
        (fun x => !(x.shopify_order_id == order.id))).filter
          (fun x => x.shopify_order_id == order.id) = [] := by
      rw [List.filter_eq_nil_iff]
      intro a ha
      have hb := (List.mem_filter.mp ha).2
      simp only [Bool.not_eq_eq_eq_not, Bool.not_true, beq_eq_false_iff_ne] at hb
      simp [hb]
    rw [hnil]
  · intro hmem
    unfold upsertOrders at hmem
    rcases List.mem_cons.mp hmem with h1 | h1
    · exact hs (by rw [h1]; rfl)
    · have hb := (List.mem_filter.mp h1).2
      simp [hid] at hb

/-- Witness for C10: a record for the sample order id stored under
`shop2.example.com` is replaced by the delivery for `shop1.example.com`. -/
theorem claim_C10_witness :
    (save_order
        { orders := [orderRow wOrder "shop2.example.com"],
          users := [wUserAt 0], notifications := [] }
        wOrder "shop1.example.com" wGw).1.orders.filter
          (fun x => x.shopify_order_id == wOrder.id)
        = [orderRow wOrder "shop1.example.com"]
    ∧ orderRow wOrder "shop2.example.com" ∉ (save_order
        { orders := [orderRow wOrder "shop2.example.com"],
          users := [wUserAt 0], notifications := [] }
        wOrder "shop1.example.com" wGw).1.orders :=
  claim_C10
    { orders := [orderRow wOrder "shop2.example.com"],
      users := [wUserAt 0], notifications := [] }
    wOrder "shop1.example.com" wGw (orderRow wOrder "shop2.example.com")
    (List.mem_cons_self _ _) rfl (by decide)

/-! ### Signature verification -/

theorem b64char_ne_61 (n : Nat) : b64char n ≠ 61 := by
  unfold b64char; split_ifs <;> omega

theorem b64char_inj {u v : Nat} (hu : u < 64) (hv : v < 64)
    (h : b64char u = b64char v) : u = v := by
  revert h; unfold b64char; split_ifs <;> omega

theorem b64encode_inj : ∀ (xs ys : List Nat), (∀ x ∈ xs, x < 256) →
    (∀ y ∈ ys, y < 256) → b64encode xs = b64encode ys → xs = ys
  | [], [], _, _, _ => rfl
  | [], [_], _, _, h => by simp [b64encode] at h
  | [], [_, _], _, _, h => by simp [b64encode] at h
  | [], _ :: _ :: _ :: _, _, _, h => by simp [b64encode] at h
  | [_], [], _, _, h => by simp [b64encode] at h
  | [a], [a'], hx, hy, h => by
      have ha : a < 256 := hx a (by simp)
      have ha' : a' < 256 := hy a' (by simp)
      simp only [b64encode, List.cons.injEq] at h
      have h1 := b64char_inj (by omega) (by omega) h.1
      have h2 := b64char_inj (by omega) (by omega) h.2.1
      have : a = a' := by omega
      rw [this]
  | [a], [a', b'], hx, hy, h => by
      simp only [b64encode, List.cons.injEq] at h
      exact absurd h.2.2.1.symm (b64char_ne_61 _)
  | [a], a' :: b' :: c' :: rest', hx, hy, h => by
      simp only [b64encode, List.cons.injEq] at h
      exact absurd h.2.2.1.symm (b64char_ne_61 _)
  | [a, b], [], _, _, h => by simp [b64encode] at h
  | [a, b], [a'], hx, hy, h => by
      simp only [b64encode, List.cons.injEq] at h
      exact absurd h.2.2.1 (b64char_ne_61 _)
  | [a, b], [a', b'], hx, hy, h => by
      have ha : a < 256 := hx a (by simp)
      have hb : b < 256 := hx b (by simp)
      have ha' : a' < 256 := hy a' (by simp)
      have hb' : b' < 256 := hy b' (by simp)
      simp only [b64encode, List.cons.injEq] at h
      have h1 := b64char_inj (by omega) (by omega) h.1
      have h2 := b64char_inj (by omega) (by omega) h.2.1
      have h3 := b64char_inj (by omega) (by omega) h.2.2.1
      have hab : a = a' ∧ b = b' := by omega
      rw [hab.1, hab.2]
  | [a, b], a' :: b' :: c' :: rest', hx, hy, h => by
      simp only [b64encode, List.cons.injEq] at h
      exact absurd h.2.2.2.1.symm (b64char_ne_61 _)
  | a :: b :: c :: rest, [], _, _, h => by simp [b64encode] at h
  | a :: b :: c :: rest, [a'], hx, hy, h => by
      simp only [b64encode, List.cons.injEq] at h
      exact absurd h.2.2.1 (b64char_ne_61 _)
  | a :: b :: c :: rest, [a', b'], hx, hy, h => by
      simp only [b64encode, List.cons.injEq] at h
      exact absurd h.2.2.2.1 (b64char_ne_61 _)
  | a :: b :: c :: rest, a' :: b' :: c' :: rest', hx, hy, h => by
      have ha : a < 256 := hx a (by simp)
      have hb : b < 256 := hx b (by simp)
      have hc : c < 256 := hx c (by simp)
      have ha' : a' < 256 := hy a' (by simp)
      have hb' : b' < 256 := hy b' (by simp)
      have hc' : c' < 256 := hy c' (by simp)
      simp only [b64encode, List.cons.injEq] at h
      have h1 := b64char_inj (by omega) (by omega) h.1
      have h2 := b64char_inj (by omega) (by omega) h.2.1
      have h3 := b64char_inj (by omega) (by omega) h.2.2.1
      have h4 := b64char_inj (by omega) (by omega) h.2.2.2.1
      have hr := b64encode_inj rest rest'
        (fun x hx' => hx x (by simp [hx'])) (fun y hy' => hy y (by simp [hy']))
        h.2.2.2.2
      have habc : a = a' ∧ b = b' ∧ c = c' := by omega
      rw [habc.1, habc.2.1, habc.2.2, hr]

/-- Claim C4: `verify_webhook` accepts exactly the base64-encoded HMAC
digest of the exact raw body bytes.  Stated over the abstracted digest
parameter (HMAC-SHA256 lives in Python's standard library, outside this
repository): (1) the verifier returns true iff the supplied header equals
`b64encode (digest secret body)`; (2) replacing a valid signature by any
different byte string — e.g. flipping any byte of it — makes it return
false; (3) replacing the body by one whose digest differs — which is what
flipping any byte of the body does, unless it produced an HMAC-SHA256
collision, a premise outside mathematics — makes it return false.  The
`< 256` hypotheses record that digests are byte strings, which makes
`b64encode` injective on them. -/
theorem claim_C4 (digest : List Nat → List Nat → List Nat)
    (secret body header : List Nat) :
    (verify_webhook digest secret body (some header) = .ok true
        ↔ header = b64encode (digest secret body))
    ∧ (∀ header' : List Nat,
        verify_webhook digest secret body (some header) = .ok true →
        header' ≠ header →
        verify_webhook digest secret body (some header') = .ok false)
    ∧ (∀ body' : List Nat,
        (∀ x ∈ digest secret body, x < 256) →
        (∀ x ∈ digest secret body', x < 256) →
        verify_webhook digest secret body (some header) = .ok true →
        digest secret body' ≠ digest secret body →
        verify_webhook digest secret body' (some header) = .ok false) := by
  refine ⟨?_, ?_, ?_⟩
  · unfold verify_webhook
    simp only [Except.ok.injEq, beq_iff_eq]
    exact eq_comm
  · intro header' hv hne
    unfold verify_webhook at hv ⊢
    simp only [Except.ok.injEq, beq_iff_eq] at hv
    simp only [Except.ok.injEq, beq_eq_false_iff_ne]
    exact fun he => hne (hv.symm.trans he).symm
  · intro body' hb hb' hv hne
    unfold verify_webhook at hv ⊢
    simp only [Except.ok.injEq, beq_iff_eq] at hv
    simp only [Except.ok.injEq, beq_eq_false_iff_ne]
    intro he
    exact hne (b64encode_inj _ _ hb' hb (he.trans hv.symm))

/-- Witness for C4: under the sample digest, the correct signature for body
`[2]` is accepted, and the same signature over the flipped body `[3]`
(whose digest differs) is rejected. -/
theorem claim_C4_witness :
    verify_webhook wDigest [1] [2] (some (b64encode (wDigest [1] [2]))) = .ok true
    ∧ verify_webhook wDigest [1] [3] (some (b64encode (wDigest [1] [2]))) = .ok false := by
  have h := claim_C4 wDigest [1] [2] (b64encode (wDigest [1] [2]))
  have h1 : verify_webhook wDigest [1] [2] (some (b64encode (wDigest [1] [2]))) = .ok true :=
    h.1.mpr rfl
  exact ⟨h1, h.2.2 [3] (by decide) (by decide) h1 (by decide)⟩
